import Mathlib

/-!
Verification of the lead-funnel agent: cadence scheduler, nurture sweep,
inbound router, call-trigger policy, call-outcome fallback, persistence
ordering and rule-based priority, embedded from the Python sources.
Timestamps are modelled as integers counting seconds; the fixed day offsets
are multiplied by 86400 seconds per day.
-/

/-- The cadence table of EmailEngine.get_next_email_date: the Python dict
mapping step 1..8 to day offsets 0,3,7,10,14,17,21,28, read with
`.get(step, 0)` so every other step yields the default 0. -/
def schedule (step : ℤ) : ℤ :=
  if step = 1 then 0
  else if step = 2 then 3
  else if step = 3 then 7
  else if step = 4 then 10
  else if step = 5 then 14
  else if step = 6 then 17
  else if step = 7 then 21
  else if step = 8 then 28
  else 0

def secondsPerDay : ℤ := 86400

/-- EmailEngine.get_next_email_date for the branch where a last-sent
timestamp exists: `last_sent + timedelta(days=schedule.get(step, 0))`. -/
def get_next_email_date (step : ℤ) (last_sent : ℤ) : ℤ :=
  last_sent + secondsPerDay * schedule step

/-- EmailEngine.should_send_email.  `none` models the empty
`custom.last_email_sent` string (no prior send); with a recorded timestamp
the decision is `utcnow >= get_next_email_date(step, last_sent)`.
(The `except: return False` branch for an unparsable timestamp string is
outside the model: only well-formed timestamps are represented.) -/
def should_send_email (last_email_sent : Option ℤ) (step : ℤ) (now : ℤ) : Bool :=
  match last_email_sent with
  | none => step == 1
  | some t => decide (get_next_email_date step t ≤ now)

/-- Modelled from the spec: the section 4.2 offset table
`[0,3,7,10,14,17,21,28]` indexed by step 1..8, written as the spec states it,
for comparison against the embedded `schedule`. -/
def specOffset (step : ℤ) : ℤ :=
  List.getD [0, 3, 7, 10, 14, 17, 21, 28] (step - 1).toNat 0

/-! ### Lead records and the scheduled sweep (agent.py) -/

/-- The slice of a Close lead record the sweep reads: the agent state tag,
the contact email (`none` when the lead has no email), the parsed
`custom.email_sequence_step` cursor and the parsed `custom.last_email_sent`
timestamp (`none` for the empty string). -/
structure LeadRec where
  state : String
  email : Option String
  step : ℤ
  last_email_sent : Option ℤ
deriving DecidableEq, Repr

/-- The observable effects and result dict of LeadAgent._process_nurturing_lead:
the returned flags, the state written through update_lead_state (if any), the
update_email_tracking write (step, timestamp), whether mark_as_booked ran,
which nurture step a send was invoked for, whether the booked asset pack was
sent, and how many Slack notifications were emitted. -/
structure ProcResult where
  email_sent : Bool := false
  booking_detected : Bool := false
  escalated : Bool := false
  stateWrite : Option String := none
  trackingWrite : Option (ℤ × ℤ) := none
  markedBooked : Bool := false
  sendInvoked : Option ℤ := none
  assetPackSent : Bool := false
  notifyCount : ℕ := 0
deriving DecidableEq, Repr

/-- LeadAgent._process_nurturing_lead.  `bookingFound` is the Calendly
oracle answer (consulted only when the lead has an email), `sendOk` the
success of the nurture-email send, `now` the clock.  The booked branch
inlines _convert_to_booked (mark_as_booked, BOOKED state write, asset pack,
one notification). -/
def process_nurturing_lead (lead : LeadRec) (bookingFound : Bool) (sendOk : Bool)
    (now : ℤ) : ProcResult :=
  if lead.email.isSome && bookingFound then
    { booking_detected := true, markedBooked := true, stateWrite := some "BOOKED",
      assetPackSent := true, notifyCount := 1 }
  else
    let next := lead.step + 1
    if 8 < next then
      { escalated := true, stateWrite := some "SEQUENCE_COMPLETE", notifyCount := 1 }
    else if should_send_email lead.last_email_sent next now then
      if sendOk then
        { email_sent := true, sendInvoked := some next, trackingWrite := some (next, now),
          notifyCount := if next = 4 then 1 else 0 }
      else
        { sendInvoked := some next }
    else
      {}

/-- One lead of LeadAgent.run_scheduled_tasks: the sweep only feeds leads in
NURTURING state (from _get_nurturing_leads) to _process_nurturing_lead. -/
def sweepLead (lead : LeadRec) (bookingFound : Bool) (sendOk : Bool) (now : ℤ) : ProcResult :=
  if lead.state = "NURTURING" then process_nurturing_lead lead bookingFound sendOk now
  else {}

/-- The lead record after the record-store writes of one sweep pass succeed:
update_lead_state replaces the state tag and update_email_tracking sets the
cursor and last-sent timestamp. -/
def applyEffects (lead : LeadRec) (r : ProcResult) : LeadRec :=
  { lead with
    state := r.stateWrite.getD lead.state,
    step := match r.trackingWrite with
      | some st => st.1
      | none => lead.step,
    last_email_sent := match r.trackingWrite with
      | some st => some st.2
      | none => lead.last_email_sent }

/-! ### Substring matching over lowercased text (Python `kw in text.lower()`) -/

def charsStartWith : List Char → List Char → Bool
  | [], _ => true
  | _ :: _, [] => false
  | p :: ps, c :: cs => p == c && charsStartWith ps cs

def charsContain (pat : List Char) : List Char → Bool
  | [] => pat.isEmpty
  | c :: cs => charsStartWith pat (c :: cs) || charsContain pat cs

/-- Python `pat in text.lower()`. -/
def lowerContains (text pat : String) : Bool :=
  charsContain pat.data (text.data.map Char.toLower)

/-! ### Call-trigger policy (conversation_intelligence.should_make_call) -/

def callKeywords : List String := ["demo", "pricing", "price", "cost", "how much"]

/-- Python `conversation_history[-5:]`. -/
def lastFive (l : List String) : List String := (l.reverse.take 5).reverse

/-- ConversationIntelligence.should_make_call.  `email_count` is the parsed
sequence cursor, `booked` the `custom.booked` flag string; `history` carries
the text of each prior exchange. -/
def should_make_call (email_count : ℤ) (leadType priority booked : String)
    (history : List String) : Bool :=
  if leadType = "wholesale" ∧ priority = "high" ∧ 2 ≤ email_count then true
  else if 4 ≤ email_count ∧ booked ≠ "yes" then true
  else (lastFive history).any fun text => callKeywords.any fun k => lowerContains text k

/-- Modelled from the spec: the section 4.4 eligibility formula as written —
each of the three disjuncts carries its stated no-booking proviso. -/
def specCallEligible (email_count : ℤ) (leadType priority booked : String)
    (history : List String) : Bool :=
  (decide (leadType = "wholesale") && decide (priority = "high")
      && decide (2 ≤ email_count) && decide (booked ≠ "yes"))
  || (decide (4 ≤ email_count) && decide (booked ≠ "yes"))
  || (((lastFive history).any fun text => callKeywords.any fun k => lowerContains text k)
      && decide (booked ≠ "yes"))

/-! ### Analyzer output and the inbound router (email_reply_handler.py, sms_handler.py) -/

/-- The Analyzer classification dict produced by
ConversationIntelligence.analyze_message. -/
structure Analysis where
  intent : String
  sentiment : String
  qualification_level : String
  key_concerns : List String
  should_escalate : Bool
  escalation_reason : String
  suggested_response : String
  should_book_call : Bool
  next_action : String
deriving DecidableEq, Repr

/-- One externally visible side effect of a handler, in program order. -/
inductive Effect
  | slackNotify (label : String)
  | logActivity (label : String)
  | stateWrite (state : String)
  | sendEmail (kind : String)
  | sendSms (body : String)
  | createLead
deriving DecidableEq, Repr

/-- The effects of a successful CloseClient.update_lead_state call: the state
field write followed by its activity note. -/
def updateLeadStateEffects (s : String) : List Effect :=
  [.stateWrite s, .logActivity ("Agent state changed to: " ++ s)]

/-- Which branch of EmailReplyHandler._handle_based_on_analysis ran. -/
inductive EmailBranch
  | escalated | bookingSent | responseSent | closed | defaultHandled
deriving DecidableEq, Repr

structure EmailDispatch where
  branch : EmailBranch
  effects : List Effect
  status : String
deriving DecidableEq, Repr

/-- EmailReplyHandler._handle_based_on_analysis: the reply notification is
always sent first; then the should_escalate flag is tested before any
next_action dispatch. -/
def handle_based_on_analysis (a : Analysis) : EmailDispatch :=
  let base : List Effect := [.slackNotify "email_reply"]
  if a.should_escalate then
    { branch := .escalated,
      effects := base ++ [.slackNotify "escalation_needed",
        .logActivity "Escalated to Josh", .sendEmail "holding_reply"],
      status := "escalated" }
  else if a.next_action = "book_call" then
    { branch := .bookingSent,
      effects := base ++ [.sendEmail "booking_link",
        .logActivity "Sent booking link via email reply"],
      status := "booking_sent" }
  else if a.next_action = "send_response" then
    { branch := .responseSent,
      effects := base ++ [.sendEmail "ai_response",
        .logActivity "AI Response Sent", .logActivity "Conversation: Agent"],
      status := "response_sent" }
  else if a.next_action = "end_conversation" then
    { branch := .closed,
      effects := base ++ updateLeadStateEffects "CLOSED_LOST"
        ++ [.slackNotify "not_interested"],
      status := "closed" }
  else
    { branch := .defaultHandled, effects := base, status := "handled" }

/-- EmailReplyHandler.handle_inbound_email after the sender lookup:
unresolved senders produce one notification and stop; resolved leads get the
inbound activity log, the NURTURING-to-ENGAGED write, then the dispatch. -/
def handle_inbound_email (leadLookup : Option LeadRec) (a : Analysis) :
    List Effect × String :=
  match leadLookup with
  | none => ([.slackNotify "unknown_lead_email"], "escalated")
  | some lead =>
    let d := handle_based_on_analysis a
    ([Effect.logActivity "Inbound Email Reply"]
      ++ (if lead.state = "NURTURING" then updateLeadStateEffects "ENGAGED" else [])
      ++ d.effects, d.status)

/-- Which branch of SMSHandler._handle_sms_analysis ran. -/
inductive SmsBranch
  | escalationHold | bookingLink | aiResponse | defaultHelp
deriving DecidableEq, Repr

structure SmsDispatch where
  branch : SmsBranch
  effects : List Effect
  responseText : String
deriving DecidableEq, Repr

/-- The SMS length cap: responses over 300 characters are cut to 297 plus an
ellipsis. -/
def truncateSms (s : String) : String :=
  if 300 < s.length then s.take 297 ++ "..." else s

/-- SMSHandler._handle_sms_analysis: should_escalate is tested before any
next_action dispatch; the escalation branch notifies the operator and
returns the holding text. -/
def handle_sms_analysis (name : String) (a : Analysis) : SmsDispatch :=
  if a.should_escalate then
    { branch := .escalationHold, effects := [.slackNotify "sms_escalation"],
      responseText := "Hi " ++ name
        ++ ", great question! Josh will text you back within the hour to discuss this personally." }
  else if a.next_action = "book_call" then
    { branch := .bookingLink, effects := [],
      responseText := a.suggested_response
        ++ "\n\nBook here: https://calendly.com/josh-myhumehealth" }
  else if a.next_action = "send_response" then
    { branch := .aiResponse, effects := [], responseText := truncateSms a.suggested_response }
  else
    { branch := .defaultHelp, effects := [],
      responseText := "Thanks for reaching out! How can I help? (Or book a call: https://calendly.com/josh-myhumehealth)" }

/-- The TwiML holding text returned to an unknown SMS sender (payload text
abridged to its first sentence; only its presence matters here). -/
def unknownSmsHoldingText : String :=
  "Hi! Thanks for texting Hume. Could you share your name and company? Or book a call: https://calendly.com/josh-myhumehealth"

/-- SMSHandler.handle_inbound_sms after the phone lookup: the second
component is the message placed in the returned TwiML (the holding text for
unknown senders, empty otherwise since the reply was already sent). -/
def handle_inbound_sms (leadLookup : Option LeadRec) (name : String) (a : Analysis) :
    List Effect × String :=
  match leadLookup with
  | none => ([.slackNotify "unknown_number_sms"], unknownSmsHoldingText)
  | some lead =>
    let d := handle_sms_analysis name a
    ([Effect.logActivity "Inbound SMS"]
      ++ (if lead.state = "NURTURING" then updateLeadStateEffects "ENGAGED" else [])
      ++ d.effects
      ++ [.sendSms d.responseText, .logActivity "Outbound SMS",
          .slackNotify "sms_conversation"], "")

/-! ### Voice-call outcome handling (vapi_handler.py) -/

/-- The dict returned by VAPIHandler._analyze_call_outcome. -/
structure CallOutcome where
  intent : String
  booked_call : Bool
  not_interested : Bool
  summary : String
deriving DecidableEq, Repr

/-- VAPIHandler._analyze_call_outcome: keyword fallback over the lowercased
transcript, first booking words, then refusal words, else follow-up. -/
def analyze_call_outcome (transcript : String) : CallOutcome :=
  if lowerContains transcript "calendar" || lowerContains transcript "book" then
    { intent := "booking_interested", booked_call := true, not_interested := false,
      summary := "Lead interested in booking a call" }
  else if lowerContains transcript "not interested" || lowerContains transcript "no thanks" then
    { intent := "not_interested", booked_call := false, not_interested := true,
      summary := "Lead not interested" }
  else
    { intent := "needs_follow_up", booked_call := false, not_interested := false,
      summary := "Lead needs more nurturing" }

structure CallEndedEffects where
  activityLogged : Bool := false
  stateWrite : Option String := none
  notified : Bool := false
  status : String
deriving DecidableEq, Repr

/-- VAPIHandler.handle_call_ended: with a customer phone and a matching lead,
the transcript outcome drives the state write — CALL_BOOKED on booking
interest, CLOSED_LOST on refusal, and no write at all otherwise. -/
def handle_call_ended (phone : Option String) (leadFound : Bool)
    (transcript : String) : CallEndedEffects :=
  match phone with
  | none => { status := "no_lead_found" }
  | some _ =>
    if leadFound then
      let outcome := analyze_call_outcome transcript
      { activityLogged := true,
        stateWrite :=
          if outcome.booked_call then some "CALL_BOOKED"
          else if outcome.not_interested then some "CLOSED_LOST"
          else none,
        notified := true, status := "processed" }
    else
      { status := "no_lead_found" }

/-! ### Persistence ordering (close_sync.update_lead_state) -/

/-- What one update_lead_state call leaves behind. -/
structure PersistOutcome where
  stateChanged : Bool
  activityLogged : Bool
  raised : Bool
deriving DecidableEq, Repr

/-- CloseClient.update_lead_state: the state PUT runs first; on its success
the activity note is posted through _log_activity, which swallows its own
failure (returning an empty dict); on PUT failure an exception is raised and
no activity is written.  `putOk` and `noteOk` are the two HTTP outcomes. -/
def update_lead_state (putOk noteOk : Bool) : PersistOutcome :=
  if putOk then { stateChanged := true, activityLogged := noteOk, raised := false }
  else { stateChanged := false, activityLogged := false, raised := true }

/-! ### Rule-based priority (classifier.py) -/

/-- Python truthiness of `extracted.get(key)`: absent key or empty string is
falsy. -/
def truthy : Option String → Bool
  | none => false
  | some s => s ≠ ""

/-- LeadClassifier._calculate_priority: wholesale adds two signals; phone,
company (other than "Unknown") and goals longer than 20 characters add one
each; four signals make "high", two make "medium". -/
def calculate_priority (phone company goals : Option String) (is_wholesale : Bool) : String :=
  let s : ℤ :=
    (if is_wholesale then 2 else 0)
    + (if truthy phone then 1 else 0)
    + (if truthy company ∧ company ≠ some "Unknown" then 1 else 0)
    + (if truthy goals ∧ 20 < (goals.getD "").length then 1 else 0)
  if 4 ≤ s then "high" else if 2 ≤ s then "medium" else "low"

/-- The priority field LeadClassifier._classify_hume_connect assigns: it
calls _calculate_priority with the default is_wholesale=False. -/
def classify_hume_connect_priority (phone company goals : Option String) : String :=
  calculate_priority phone company goals false

/-! ### Helper lemmas -/

lemma schedule_pos_of_two_le (s : ℤ) (h2 : 2 ≤ s) (h8 : s ≤ 8) : 0 < schedule s := by
  interval_cases s <;> norm_num [schedule]

lemma specOffset_eq_schedule (s : ℤ) (h1 : 1 ≤ s) (h8 : s ≤ 8) : specOffset s = schedule s := by
  interval_cases s <;> decide

lemma applyEffects_default (lead : LeadRec) : applyEffects lead {} = lead := rfl

lemma process_no_booking (lead : LeadRec) (sendOk : Bool) (now : ℤ) :
    process_nurturing_lead lead false sendOk now =
      if 8 < lead.step + 1 then
        { escalated := true, stateWrite := some "SEQUENCE_COMPLETE", notifyCount := 1 }
      else if should_send_email lead.last_email_sent (lead.step + 1) now then
        if sendOk then
          { email_sent := true, sendInvoked := some (lead.step + 1),
            trackingWrite := some (lead.step + 1, now),
            notifyCount := if lead.step + 1 = 4 then 1 else 0 }
        else { sendInvoked := some (lead.step + 1) }
      else {} := by
  simp [process_nurturing_lead]

/-! ### Theorems for the claims -/

/-- C1: for a NURTURING lead with cursor `s`, the scheduler answers ready for
step `s+1` (any step 1..8) iff now is at or past last_sent plus the table
offset `[0,3,7,10,14,17,21,28]` for that step, boundary included; with no
prior send it answers ready exactly for step 1. -/
theorem cadence_should_send_iff (step t now : ℤ) (h1 : 1 ≤ step) (h8 : step ≤ 8) :
    (should_send_email (some t) step now = true ↔
      t + secondsPerDay * specOffset step ≤ now)
    ∧ (should_send_email none step now = true ↔ step = 1) := by
  refine ⟨?_, by simp [should_send_email]⟩
  rw [specOffset_eq_schedule step h1 h8]
  simp [should_send_email, get_next_email_date]

theorem cadence_should_send_iff_witness :
    (should_send_email (some 0) 2 259200 = true ↔
      (0 : ℤ) + secondsPerDay * specOffset 2 ≤ 259200)
    ∧ (should_send_email none 2 259200 = true ↔ (2 : ℤ) = 1) :=
  cadence_should_send_iff 2 0 259200 (by norm_num) (by norm_num)

/-- C3 counterexample: the claim says the scheduler is never ready for a step
above 8, yet at step 9 with last_sent 0 and now 0 the code answers ready
(the offset table lookup defaults to 0 days). -/
theorem should_send_above_eight_cex : should_send_email (some 0) 9 0 = true := by decide

/-- C3 amended: for every step above 8 with a recorded last-sent timestamp,
the scheduler treats the offset as the dict default 0 days, so it is ready
exactly when now is at or past last_sent; never-ready protection lives in
the sweep, which transitions to SEQUENCE_COMPLETE before consulting the
scheduler for such steps. -/
theorem should_send_above_eight_default (step t now : ℤ) (h : 8 < step) :
    should_send_email (some t) step now = decide (t ≤ now) := by
  have h1 : step ≠ 1 := by omega
  have h2 : step ≠ 2 := by omega
  have h3 : step ≠ 3 := by omega
  have h4 : step ≠ 4 := by omega
  have h5 : step ≠ 5 := by omega
  have h6 : step ≠ 6 := by omega
  have h7 : step ≠ 7 := by omega
  have h8 : step ≠ 8 := by omega
  simp [should_send_email, get_next_email_date, schedule, secondsPerDay,
    h1, h2, h3, h4, h5, h6, h7, h8]

theorem should_send_above_eight_default_witness :
    should_send_email (some 5) 12 4 = decide ((5 : ℤ) ≤ 4) :=
  should_send_above_eight_default 12 5 4 (by norm_num)

/-- C4: a NURTURING lead whose cursor is at least 8 and for whom no booking
is detected is transitioned to SEQUENCE_COMPLETE by the sweep, with exactly
one notification, no send invoked and no email sent. -/
theorem sweep_sequence_complete (lead : LeadRec) (sendOk : Bool) (now : ℤ)
    (hstate : lead.state = "NURTURING") (hstep : 8 ≤ lead.step) :
    (sweepLead lead false sendOk now).stateWrite = some "SEQUENCE_COMPLETE"
    ∧ (sweepLead lead false sendOk now).notifyCount = 1
    ∧ (sweepLead lead false sendOk now).sendInvoked = none
    ∧ (sweepLead lead false sendOk now).email_sent = false
    ∧ (sweepLead lead false sendOk now).escalated = true := by
  have h9 : 8 < lead.step + 1 := by omega
  simp [sweepLead, hstate, process_no_booking, h9]

theorem sweep_sequence_complete_witness :
    (sweepLead ⟨"NURTURING", some "lead@example.com", 8, some 0⟩ false true 0).stateWrite
        = some "SEQUENCE_COMPLETE"
    ∧ (sweepLead ⟨"NURTURING", some "lead@example.com", 8, some 0⟩ false true 0).notifyCount = 1
    ∧ (sweepLead ⟨"NURTURING", some "lead@example.com", 8, some 0⟩ false true 0).sendInvoked = none
    ∧ (sweepLead ⟨"NURTURING", some "lead@example.com", 8, some 0⟩ false true 0).email_sent = false
    ∧ (sweepLead ⟨"NURTURING", some "lead@example.com", 8, some 0⟩ false true 0).escalated = true :=
  sweep_sequence_complete ⟨"NURTURING", some "lead@example.com", 8, some 0⟩ true 0 rfl
    (by norm_num)

/-- C5 counterexample: the claim promises zero state changes on an immediate
second sweep, but a lead at cursor 7 whose first-run send advances it to 8
is transitioned to SEQUENCE_COMPLETE by the second run at the same clock. -/
theorem sweep_second_run_cex :
    (sweepLead (applyEffects ⟨"NURTURING", some "lead@example.com", 7, some 0⟩
        (sweepLead ⟨"NURTURING", some "lead@example.com", 7, some 0⟩ false true 2419200))
      false true 2419200).stateWrite = some "SEQUENCE_COMPLETE"
    ∧ (sweepLead ⟨"NURTURING", some "lead@example.com", 7, some 0⟩ false true 2419200).email_sent
        = true := by
  decide

/-- C5 amended: rerunning the sweep at the same clock with no new bookings
and the first run's writes applied invokes no second send; and every lead
whose post-first-run cursor is still below 8 sees a complete no-op.  (A lead
whose first-run send moved its cursor to 8 is instead transitioned to
SEQUENCE_COMPLETE by the second run.) -/
theorem sweep_second_run_no_send (lead : LeadRec) (now : ℤ) (h0 : 0 ≤ lead.step) :
    (sweepLead (applyEffects lead (sweepLead lead false true now)) false true now).sendInvoked
        = none
    ∧ (sweepLead (applyEffects lead (sweepLead lead false true now)) false true now).email_sent
        = false
    ∧ ((applyEffects lead (sweepLead lead false true now)).step + 1 ≤ 8 →
        sweepLead (applyEffects lead (sweepLead lead false true now)) false true now = {}) := by
  by_cases hst : lead.state = "NURTURING"
  · have hr1 : sweepLead lead false true now = process_nurturing_lead lead false true now := by
      simp [sweepLead, hst]
    rw [hr1, process_no_booking]
    by_cases h9 : 8 < lead.step + 1
    · rw [if_pos h9]
      have hl1 : applyEffects lead
          { escalated := true, stateWrite := some "SEQUENCE_COMPLETE", notifyCount := 1 }
          = { lead with state := "SEQUENCE_COMPLETE" } := rfl
      rw [hl1]
      have hr2 : sweepLead { lead with state := "SEQUENCE_COMPLETE" } false true now = {} := by
        simp [sweepLead]
      rw [hr2]
      exact ⟨rfl, rfl, fun _ => rfl⟩
    · rw [if_neg h9]
      by_cases hs : should_send_email lead.last_email_sent (lead.step + 1) now = true
      · rw [if_pos hs, if_pos rfl]
        have hl1 : applyEffects lead
            { email_sent := true, sendInvoked := some (lead.step + 1),
              trackingWrite := some (lead.step + 1, now),
              notifyCount := if lead.step + 1 = 4 then 1 else 0 }
            = { lead with step := lead.step + 1, last_email_sent := some now } := rfl
        rw [hl1]
        have hr2 : sweepLead { lead with step := lead.step + 1, last_email_sent := some now }
            false true now
            = process_nurturing_lead
                { lead with step := lead.step + 1, last_email_sent := some now } false true now := by
          simp [sweepLead, hst]
        rw [hr2, process_no_booking]
        dsimp only
        by_cases h10 : 8 < lead.step + 1 + 1
        · rw [if_pos h10]
          refine ⟨rfl, rfl, fun hle => ?_⟩
          exact absurd hle (by omega)
        · rw [if_neg h10]
          have hns : should_send_email (some now) (lead.step + 1 + 1) now = false := by
            have hp : 0 < schedule (lead.step + 1 + 1) :=
              schedule_pos_of_two_le _ (by omega) (by omega)
            have hq : (0 : ℤ) < 86400 * schedule (lead.step + 1 + 1) := by
              have : (0 : ℤ) < 86400 := by norm_num
              exact mul_pos this hp
            simp only [should_send_email, get_next_email_date, secondsPerDay,
              decide_eq_false_iff_not, not_le]
            linarith
          simp [hns]
      · rw [if_neg hs, applyEffects_default, hr1, process_no_booking, if_neg h9, if_neg hs]
        exact ⟨rfl, rfl, fun _ => rfl⟩
  · have hr1 : sweepLead lead false true now = {} := by simp [sweepLead, hst]
    rw [hr1, applyEffects_default, hr1]
    exact ⟨rfl, rfl, fun _ => rfl⟩

theorem sweep_second_run_no_send_witness :
    (sweepLead (applyEffects ⟨"NURTURING", some "lead@example.com", 2, some 0⟩
        (sweepLead ⟨"NURTURING", some "lead@example.com", 2, some 0⟩ false true 0))
      false true 0).sendInvoked = none
    ∧ (sweepLead (applyEffects ⟨"NURTURING", some "lead@example.com", 2, some 0⟩
        (sweepLead ⟨"NURTURING", some "lead@example.com", 2, some 0⟩ false true 0))
      false true 0).email_sent = false
    ∧ ((applyEffects ⟨"NURTURING", some "lead@example.com", 2, some 0⟩
        (sweepLead ⟨"NURTURING", some "lead@example.com", 2, some 0⟩ false true 0)).step + 1 ≤ 8 →
        sweepLead (applyEffects ⟨"NURTURING", some "lead@example.com", 2, some 0⟩
          (sweepLead ⟨"NURTURING", some "lead@example.com", 2, some 0⟩ false true 0))
          false true 0 = {}) :=
  sweep_second_run_no_send ⟨"NURTURING", some "lead@example.com", 2, some 0⟩ 0 (by norm_num)

/-- C2: whenever the Analyzer sets the escalation flag, both the email-reply
dispatcher and the SMS dispatcher take the escalation branch — operator
notification, escalation log and holding reply on email, operator
notification and holding text on SMS — and never the booking branch,
whatever the next-action tag says. -/
theorem escalation_precedence_over_booking (a : Analysis) (name : String)
    (h : a.should_escalate = true) :
    (handle_based_on_analysis a).branch = EmailBranch.escalated
    ∧ Effect.sendEmail "holding_reply" ∈ (handle_based_on_analysis a).effects
    ∧ Effect.logActivity "Escalated to Josh" ∈ (handle_based_on_analysis a).effects
    ∧ Effect.slackNotify "escalation_needed" ∈ (handle_based_on_analysis a).effects
    ∧ Effect.sendEmail "booking_link" ∉ (handle_based_on_analysis a).effects
    ∧ (handle_sms_analysis name a).branch = SmsBranch.escalationHold
    ∧ Effect.slackNotify "sms_escalation" ∈ (handle_sms_analysis name a).effects
    ∧ (handle_sms_analysis name a).responseText
        = "Hi " ++ name
          ++ ", great question! Josh will text you back within the hour to discuss this personally." := by
  simp [handle_based_on_analysis, handle_sms_analysis, h]

theorem escalation_precedence_over_booking_witness :
    (handle_based_on_analysis
        ⟨"booking_request", "interested", "qualified", [], true, "enterprise deal",
          "sure", true, "book_call"⟩).branch = EmailBranch.escalated
    ∧ Effect.sendEmail "holding_reply" ∈ (handle_based_on_analysis
        ⟨"booking_request", "interested", "qualified", [], true, "enterprise deal",
          "sure", true, "book_call"⟩).effects
    ∧ Effect.logActivity "Escalated to Josh" ∈ (handle_based_on_analysis
        ⟨"booking_request", "interested", "qualified", [], true, "enterprise deal",
          "sure", true, "book_call"⟩).effects
    ∧ Effect.slackNotify "escalation_needed" ∈ (handle_based_on_analysis
        ⟨"booking_request", "interested", "qualified", [], true, "enterprise deal",
          "sure", true, "book_call"⟩).effects
    ∧ Effect.sendEmail "booking_link" ∉ (handle_based_on_analysis
        ⟨"booking_request", "interested", "qualified", [], true, "enterprise deal",
          "sure", true, "book_call"⟩).effects
    ∧ (handle_sms_analysis "Ana"
        ⟨"booking_request", "interested", "qualified", [], true, "enterprise deal",
          "sure", true, "book_call"⟩).branch = SmsBranch.escalationHold
    ∧ Effect.slackNotify "sms_escalation" ∈ (handle_sms_analysis "Ana"
        ⟨"booking_request", "interested", "qualified", [], true, "enterprise deal",
          "sure", true, "book_call"⟩).effects
    ∧ (handle_sms_analysis "Ana"
        ⟨"booking_request", "interested", "qualified", [], true, "enterprise deal",
          "sure", true, "book_call"⟩).responseText
        = "Hi " ++ "Ana"
          ++ ", great question! Josh will text you back within the hour to discuss this personally." :=
  escalation_precedence_over_booking
    ⟨"booking_request", "interested", "qualified", [], true, "enterprise deal",
      "sure", true, "book_call"⟩ "Ana" rfl

/-- C6 counterexample: the claim says a state write and its activity record
are all-or-nothing, yet when the state PUT succeeds and the activity POST
fails the state is changed with no activity appended (and no error raised,
since _log_activity swallows its failure). -/
theorem update_lead_state_partial_cex :
    (update_lead_state true false).stateChanged = true
    ∧ (update_lead_state true false).activityLogged = false
    ∧ (update_lead_state true false).raised = false := by
  decide

/-- C6 amended: one direction of the atomicity holds — the activity record
is never appended without the state changing, and a failed state write
raises with no partial effect; but a successful state write whose activity
append fails leaves the state changed without its activity record. -/
theorem update_lead_state_ordering (putOk noteOk : Bool) :
    ((update_lead_state putOk noteOk).activityLogged = true →
      (update_lead_state putOk noteOk).stateChanged = true)
    ∧ ((update_lead_state putOk noteOk).raised = true →
      (update_lead_state putOk noteOk).stateChanged = false
      ∧ (update_lead_state putOk noteOk).activityLogged = false) := by
  cases putOk <;> cases noteOk <;> simp [update_lead_state]

theorem update_lead_state_ordering_witness :
    (update_lead_state false false).stateChanged = false
    ∧ (update_lead_state false false).activityLogged = false :=
  (update_lead_state_ordering false false).2 (by decide)

/-- C7 counterexample: the claim says an inconclusive call outcome sends the
lead back to NURTURING, but the handler writes no state at all in that case
— the lead keeps whatever state it had (CALLING). -/
theorem inconclusive_call_no_nurture_cex :
    (analyze_call_outcome "hello").intent = "needs_follow_up"
    ∧ (handle_call_ended (some "+15551234567") true "hello").stateWrite ≠ some "NURTURING"
    ∧ (handle_call_ended (some "+15551234567") true "hello").stateWrite = none := by
  decide

/-- C7 amended: the fallback call-outcome classifier always yields exactly
one of booking-interested, not-interested or needs-follow-up; on the
inconclusive (needs-follow-up) outcome the call-ended handler performs no
state transition at all, leaving the lead in its current state rather than
resuming NURTURING. -/
theorem call_outcome_total_inconclusive (transcript phone : String) (leadFound : Bool) :
    ((analyze_call_outcome transcript).intent = "booking_interested"
      ∨ (analyze_call_outcome transcript).intent = "not_interested"
      ∨ (analyze_call_outcome transcript).intent = "needs_follow_up")
    ∧ ((analyze_call_outcome transcript).intent = "needs_follow_up" →
        (handle_call_ended (some phone) leadFound transcript).stateWrite = none) := by
  constructor
  · unfold analyze_call_outcome
    split_ifs <;> simp
  · intro h
    cases leadFound with
    | false => simp [handle_call_ended]
    | true =>
      simp only [handle_call_ended, if_true]
      unfold analyze_call_outcome at h ⊢
      split_ifs at h ⊢ <;> simp_all

theorem call_outcome_total_inconclusive_witness :
    (((analyze_call_outcome "hello").intent = "booking_interested"
      ∨ (analyze_call_outcome "hello").intent = "not_interested"
      ∨ (analyze_call_outcome "hello").intent = "needs_follow_up"))
    ∧ (handle_call_ended (some "+15551234567") true "hello").stateWrite = none :=
  ⟨(call_outcome_total_inconclusive "hello" "+15551234567" true).1,
    (call_outcome_total_inconclusive "hello" "+15551234567" true).2 (by decide)⟩

/-- C8 counterexample: the claim makes call-eligibility an iff with the
spec's three conditions, each carrying a no-booking proviso; but the code
answers eligible for a booked high-priority wholesale lead at cursor 2,
where none of the spec's conditions holds. -/
theorem call_trigger_booked_cex :
    should_make_call 2 "wholesale" "high" "yes" [] = true
    ∧ specCallEligible 2 "wholesale" "high" "yes" [] = false := by
  decide

/-- C8 amended: call-eligibility holds iff one of the three conditions does,
where only the cursor-at-least-4 condition checks the booking flag — the
wholesale/high-priority condition and the pricing/demo-keyword condition
apply regardless of booking. -/
theorem call_trigger_iff (email_count : ℤ) (leadType priority booked : String)
    (history : List String) :
    should_make_call email_count leadType priority booked history = true ↔
      ((leadType = "wholesale" ∧ priority = "high" ∧ 2 ≤ email_count)
        ∨ (4 ≤ email_count ∧ booked ≠ "yes")
        ∨ ((lastFive history).any fun text =>
            callKeywords.any fun k => lowerContains text k) = true) := by
  unfold should_make_call
  split_ifs with h1 h2
  · exact iff_of_true rfl (Or.inl h1)
  · exact iff_of_true rfl (Or.inr (Or.inl h2))
  · constructor
    · exact fun h => Or.inr (Or.inr h)
    · rintro (hc | hc | hc)
      · exact absurd hc h1
      · exact absurd hc h2
      · exact hc

/-- C9: an inbound message whose sender resolves to no lead triggers exactly
one unknown-sender notification on either channel — no state write, no
activity log, no send, no lead creation — and the SMS channel returns a
non-empty holding response in its TwiML. -/
theorem unknown_sender_no_mutation (aE aS : Analysis) (name : String) :
    handle_inbound_email none aE = ([Effect.slackNotify "unknown_lead_email"], "escalated")
    ∧ handle_inbound_sms none name aS
        = ([Effect.slackNotify "unknown_number_sms"], unknownSmsHoldingText)
    ∧ (∀ s, Effect.stateWrite s ∉ (handle_inbound_email none aE).1)
    ∧ (∀ s, Effect.stateWrite s ∉ (handle_inbound_sms none name aS).1)
    ∧ Effect.createLead ∉ (handle_inbound_email none aE).1
    ∧ Effect.createLead ∉ (handle_inbound_sms none name aS).1
    ∧ unknownSmsHoldingText ≠ "" := by
  refine ⟨rfl, rfl, ?_, ?_, ?_, ?_, ?_⟩ <;>
    simp [handle_inbound_email, handle_inbound_sms, unknownSmsHoldingText]

theorem unknown_sender_no_mutation_witness :
    handle_inbound_email none
        ⟨"question", "neutral", "unknown", [], false, "", "hi", false, "send_response"⟩
        = ([Effect.slackNotify "unknown_lead_email"], "escalated")
    ∧ handle_inbound_sms none "Ana"
        ⟨"question", "neutral", "unknown", [], false, "", "hi", false, "send_response"⟩
        = ([Effect.slackNotify "unknown_number_sms"], unknownSmsHoldingText)
    ∧ (∀ s, Effect.stateWrite s ∉ (handle_inbound_email none
        ⟨"question", "neutral", "unknown", [], false, "", "hi", false, "send_response"⟩).1)
    ∧ (∀ s, Effect.stateWrite s ∉ (handle_inbound_sms none "Ana"
        ⟨"question", "neutral", "unknown", [], false, "", "hi", false, "send_response"⟩).1)
    ∧ Effect.createLead ∉ (handle_inbound_email none
        ⟨"question", "neutral", "unknown", [], false, "", "hi", false, "send_response"⟩).1
    ∧ Effect.createLead ∉ (handle_inbound_sms none "Ana"
        ⟨"question", "neutral", "unknown", [], false, "", "hi", false, "send_response"⟩).1
    ∧ unknownSmsHoldingText ≠ "" :=
  unknown_sender_no_mutation
    ⟨"question", "neutral", "unknown", [], false, "", "hi", false, "send_response"⟩
    ⟨"question", "neutral", "unknown", [], false, "", "hi", false, "send_response"⟩ "Ana"

/-- C10: the rule-based priority always lands in high, medium or low, and a
non-wholesale (hume_connect) classification can collect at most three
signals — short of the high threshold of four — so its priority is never
high. -/
theorem priority_total_nonwholesale (phone company goals : Option String) (w : Bool) :
    (calculate_priority phone company goals w = "high"
      ∨ calculate_priority phone company goals w = "medium"
      ∨ calculate_priority phone company goals w = "low")
    ∧ classify_hume_connect_priority phone company goals ≠ "high" := by
  constructor
  · unfold calculate_priority
    split_ifs <;> simp
  · unfold classify_hume_connect_priority calculate_priority
    split_ifs <;> simp_all

theorem priority_total_nonwholesale_witness :
    (calculate_priority (some "555") (some "Acme") (some "grow the clinic business fast") false
        = "high"
      ∨ calculate_priority (some "555") (some "Acme") (some "grow the clinic business fast") false
        = "medium"
      ∨ calculate_priority (some "555") (some "Acme") (some "grow the clinic business fast") false
        = "low")
    ∧ classify_hume_connect_priority (some "555") (some "Acme")
        (some "grow the clinic business fast") ≠ "high" :=
  priority_total_nonwholesale (some "555") (some "Acme")
    (some "grow the clinic business fast") false

theorem call_trigger_iff_witness :
    should_make_call 4 "hume_connect" "low" "no" [] = true ↔
      (("hume_connect" = "wholesale" ∧ "low" = "high" ∧ (2 : ℤ) ≤ 4)
        ∨ ((4 : ℤ) ≤ 4 ∧ "no" ≠ "yes")
        ∨ ((lastFive []).any fun text =>
            callKeywords.any fun k => lowerContains text k) = true) :=
  call_trigger_iff 4 "hume_connect" "low" "no" []
